import Mathlib

/-!
Verification development for the `wavelink` `Player` controller
(`src/wavelink/player.py`).

The Python class `Player` is shallowly embedded as a record `PlayerState`
together with pure transition functions, one per method of the class.
Network calls into the remote Lavalink node (`node._update_player`,
`node._destroy_player`) are modelled by a boolean parameter `gatewayOk`
saying whether the call returns normally (`true`) or raises
`LavalinkException` (`false`); the payload each method submits is returned
alongside the new state so that theorems can speak about what was sent.
The `node._players` registry entry for this player's guild is modelled by
the boolean field `registered`; the `asyncio.Event` `_connection_event`
by the boolean `connectionEvent` (set / not set).
-/

/-- An opaque playable track; only its `encoded` payload is ever read by
`Player.play` (`track.encoded`). -/
structure Track where
  encoded : String
deriving DecidableEq, Repr

/-- The mutable state of one `Player` instance, plus its entry in the
node's `_players` registry.  `sessionId`, `token`, `endpoint` are the
three keys of `self._voice_state["voice"]`; `none` means the key is
absent (for `endpoint`, a stored Python `None` behaves identically to an
absent key, both failing the `if not endpoint` truthiness test). -/
structure PlayerState where
  guild : Option Nat
  channel : Option Nat
  connected : Bool
  connectionEvent : Bool
  sessionId : Option String
  token : Option String
  endpoint : Option String
  current : Option Track
  original : Option Track
  previous : Option Track
  volume : Int
  paused : Bool
  registered : Bool
deriving DecidableEq, Repr

/-- `Player.__init__`: no guild bound yet, `_voice_state = {"voice": {}}`,
`_connected = False`, event not set, no tracks, `_volume = 100`,
`_paused = False`, not yet in the node's `_players` registry. -/
def initState : PlayerState :=
  { guild := none
    channel := none
    connected := false
    connectionEvent := false
    sessionId := none
    token := none
    endpoint := none
    current := none
    original := none
    previous := none
    volume := 100
    paused := false
    registered := false }

/-- Python truthiness-based `volume or self._volume` for an
`Optional[int]` argument: both `None` and `0` are falsy, so an explicit
`0` falls back to the default exactly like an absent argument. -/
def pyOrInt (v : Option Int) (d : Int) : Int :=
  match v with
  | none => d
  | some x => if x = 0 then d else x

/-- The playback-delta payload `play` submits via
`node._update_player(guild.id, data=request, replace=replace)`. -/
structure PlayRequest where
  encodedTrack : Option String
  volume : Int
  position : Int
  endTime : Option Int
  paused : Bool
  replace : Bool
deriving DecidableEq, Repr

/-- Result of a `play` call: the state after the call, the payload that
was submitted, and whether the call returned normally (`ok = true`) or
re-raised the `LavalinkException` (`ok = false`). -/
structure PlayResult where
  state : PlayerState
  request : PlayRequest
  ok : Bool
deriving DecidableEq, Repr

/-- `Player.play(track, *, replace, start, end, volume, paused)`:
resolves `vol` by Python truthiness (`volume or self._volume`), mutates
`_volume`, `_current`/`_original` (when `replace or not self._current`)
and `_previous := self._current` (the possibly-already-updated current)
optimistically, submits the delta, and on `LavalinkException` sets
`_current = None`, `_original = None`, restores `_previous` and
`_volume`, and re-raises; on success commits `_paused`. -/
def Player.play (s : PlayerState) (track : Track) (replace : Bool) (start : Int)
    (endTime : Option Int) (volume : Option Int) (pausedArg : Option Bool)
    (gatewayOk : Bool) : PlayResult :=
  let original_vol : Int := s.volume
  let vol : Int := pyOrInt volume s.volume
  let s1 : PlayerState := if vol ≠ s.volume then { s with volume := vol } else s
  let s2 : PlayerState :=
    if replace || s1.current.isNone then { s1 with current := some track, original := some track }
    else s1
  let old_previous : Option Track := s2.previous
  let s3 : PlayerState := { s2 with previous := s2.current }
  let pause : Bool := pausedArg.getD s.paused
  let request : PlayRequest :=
    { encodedTrack := some track.encoded
      volume := vol
      position := start
      endTime := endTime
      paused := pause
      replace := replace }
  if gatewayOk then
    { state := { s3 with paused := pause }, request := request, ok := true }
  else
    { state :=
        { s3 with
          current := none
          original := none
          previous := old_previous
          volume := original_vol }
      request := request
      ok := false }

/-- `Player.pause(value)`: submits `{"paused": value}`; the local
`_paused` assignment sits after the `await`, so it runs only when the
gateway call returned normally.  The second component records whether
the call returned normally. -/
def Player.pause (s : PlayerState) (value : Bool) (gatewayOk : Bool) :
    PlayerState × Bool :=
  if gatewayOk then ({ s with paused := value }, true) else (s, false)

/-- Result of `set_volume`: post-call state, the volume submitted in the
`{"volume": vol}` payload, and whether the gateway call returned. -/
structure VolumeResult where
  state : PlayerState
  submitted : Int
  ok : Bool
deriving DecidableEq, Repr

/-- `Player.set_volume(value)`: clamps with `max(min(value, 1000), 0)`,
submits `{"volume": vol}` and commits `_volume = vol` only after the
`await` returns normally. -/
def Player.set_volume (s : PlayerState) (value : Int) (gatewayOk : Bool) :
    VolumeResult :=
  let vol : Int := max (min value 1000) 0
  if gatewayOk then { state := { s with volume := vol }, submitted := vol, ok := true }
  else { state := s, submitted := vol, ok := false }

/-- `Player.seek(position)`: returns without any remote call when
`self._current` is `None`; otherwise submits `{"position": position}`
(returned as `some position`).  Local fields are never mutated. -/
def Player.seek (s : PlayerState) (position : Int) : PlayerState × Option Int :=
  match s.current with
  | none => (s, none)
  | some _ => (s, some position)

/-- `Player.skip(force)` (alias `stop`): captures `self._current`,
submits `{"encodedTrack": None}` with `replace=True`, and returns the
captured track; no local field is assigned. -/
def Player.skip (s : PlayerState) : PlayerState × Option Track :=
  (s, s.current)

/-- `Player._invalidate`: `_connected = False`, `_connection_event.clear()`;
the `self.cleanup()` call only touches the host client's voice-client
table and swallows `AttributeError`/`KeyError`. -/
def Player.invalidate (s : PlayerState) : PlayerState :=
  { s with connected := false, connectionEvent := false }

/-- `Player._destroy`: invalidate, then `node._players.pop(guild.id, None)`;
only when the pop found an entry is `node._destroy_player` attempted
(its `LavalinkException` is swallowed).  The boolean returned records
whether the remote destroy request was attempted. -/
def Player.destroy (s : PlayerState) : PlayerState × Bool :=
  let s1 := Player.invalidate s
  let found := s1.registered
  ({ s1 with registered := false }, found)

/-- `Player.disconnect`: `_destroy` followed by
`guild.change_voice_state(channel=None)`, a transport call that mutates
no local controller field. -/
def Player.disconnect (s : PlayerState) : PlayerState × Bool :=
  Player.destroy s

/-- The composite voice payload `{"voice": {"sessionId": …, "token": …,
"endpoint": …}}` pushed by `_dispatch_voice_update`. -/
structure VoiceRequest where
  sessionId : String
  token : String
  endpoint : String
deriving DecidableEq, Repr

/-- `Player._dispatch_voice_update`: returns early (no push) when
`session_id` or `token` raises `KeyError`, or when `endpoint` is falsy
(absent, `None` or `""`).  Otherwise pushes the composite payload; on
`LavalinkException` it calls `self.disconnect()`, on success it sets
`_connection_event`. -/
def Player.dispatchVoiceUpdate (s : PlayerState) (gatewayOk : Bool) :
    PlayerState × Option VoiceRequest :=
  match s.sessionId, s.token with
  | some sid, some tok =>
    match s.endpoint with
    | none => (s, none)
    | some ep =>
      if ep = "" then (s, none)
      else
        let req : VoiceRequest := { sessionId := sid, token := tok, endpoint := ep }
        if gatewayOk then ({ s with connectionEvent := true }, some req)
        else ((Player.disconnect s).1, some req)
  | _, _ => (s, none)

/-- `Player.on_voice_state_update(data)`: a falsy `channel_id` triggers
`_destroy` and returns; otherwise `_connected = True`, the session id is
stored, and the channel reference resolved.  It never calls
`_dispatch_voice_update`. -/
def Player.onVoiceStateUpdate (s : PlayerState) (channelId : Option Nat)
    (sessionId : String) : PlayerState :=
  match channelId with
  | none => (Player.destroy s).1
  | some cid =>
    { s with connected := true, sessionId := some sessionId, channel := some cid }

/-- `Player.on_voice_server_update(data)`: stores `token` and `endpoint`
unconditionally, then calls `_dispatch_voice_update`. -/
def Player.onVoiceServerUpdate (s : PlayerState) (token : String)
    (endpoint : Option String) (gatewayOk : Bool) :
    PlayerState × Option VoiceRequest :=
  Player.dispatchVoiceUpdate { s with token := some token, endpoint := endpoint } gatewayOk

/-- One inbound voice-gateway event: a membership update
(`on_voice_state_update`, carrying `channel_id` and `session_id`) or a
credentials update (`on_voice_server_update`, carrying `token` and
`endpoint`; `gatewayOk` is the outcome of the push it may trigger). -/
inductive VoiceEvent where
  | membership (channelId : Option Nat) (sessionId : String)
  | credentials (token : String) (endpoint : Option String) (gatewayOk : Bool)
deriving DecidableEq, Repr

/-- Deliver one event to the player, collecting the descriptor pushes it
performed. -/
def applyEvent (s : PlayerState) : VoiceEvent → PlayerState × List VoiceRequest
  | VoiceEvent.membership cid sid => (Player.onVoiceStateUpdate s cid sid, [])
  | VoiceEvent.credentials tok ep ok =>
    let r := Player.onVoiceServerUpdate s tok ep ok
    (r.1, r.2.toList)

/-- Deliver a sequence of events in order, concatenating the descriptor
pushes. -/
def runEvents (s : PlayerState) : List VoiceEvent → PlayerState × List VoiceRequest
  | [] => (s, [])
  | e :: rest =>
    let r1 := applyEvent s e
    let r2 := runEvents r1.1 rest
    (r2.1, r1.2 ++ r2.2)

/-- The completeness test of `_dispatch_voice_update`: `session_id` and
`token` keys present, `endpoint` present and non-empty. -/
def descriptorComplete (s : PlayerState) : Bool :=
  s.sessionId.isSome && s.token.isSome && !(s.endpoint.getD "" == "")

/-- Number of credentials events in a trace that, after storing their
`token`/`endpoint` fields, find the descriptor complete — i.e. the
number of pushes the code performs, one per such event. -/
def countCompleteCredentials (s : PlayerState) : List VoiceEvent → Nat
  | [] => 0
  | VoiceEvent.membership cid sid :: rest =>
    countCompleteCredentials (Player.onVoiceStateUpdate s cid sid) rest
  | VoiceEvent.credentials tok ep ok :: rest =>
    let s1 : PlayerState := { s with token := some tok, endpoint := ep }
    (if descriptorComplete s1 then 1 else 0) +
      countCompleteCredentials (Player.dispatchVoiceUpdate s1 ok).1 rest

/-- Number of transitions of the descriptor from incomplete to complete
along a trace (the spec's "completeness transition" count). -/
def completenessTransitions (s : PlayerState) : List VoiceEvent → Nat
  | [] => 0
  | e :: rest =>
    let s1 := (applyEvent s e).1
    (if !descriptorComplete s && descriptorComplete s1 then 1 else 0) +
      completenessTransitions s1 rest

/-- Outcome of the bounded `async_timeout` wait on `_connection_event`
inside `connect`: the event got set in time, the wait timed out, or the
wait was cancelled. -/
inductive WaitOutcome where
  | signalled
  | timedOut
  | cancelled
deriving DecidableEq, Repr

/-- What `connect` does from the caller's point of view. -/
inductive ConnectOutcome where
  | success
  | invalidChannelState
  | channelTimeout
deriving DecidableEq, Repr

/-- `Player.connect(timeout=..., ...)`: raises
`InvalidChannelStateException` when no channel is bound; on first
connect binds `_guild` from the channel and registers itself in
`node._players`; then waits on `_connection_event` — a wait that returns
immediately when the event is already set — and turns both
`asyncio.TimeoutError` and `asyncio.CancelledError` into
`ChannelTimeoutException`.  `channelGuild` is the guild id of the bound
channel (`self.channel.guild`); `w` abstracts the wait's outcome. -/
def Player.connect (s : PlayerState) (channelGuild : Nat) (w : WaitOutcome) :
    ConnectOutcome × PlayerState :=
  match s.channel with
  | none => (ConnectOutcome.invalidChannelState, s)
  | some _ =>
    let s1 : PlayerState :=
      if s.guild.isNone then { s with guild := some channelGuild, registered := true } else s
    let outcome : WaitOutcome := if s1.connectionEvent then WaitOutcome.signalled else w
    match outcome with
    | WaitOutcome.signalled => (ConnectOutcome.success, s1)
    | WaitOutcome.timedOut => (ConnectOutcome.channelTimeout, s1)
    | WaitOutcome.cancelled => (ConnectOutcome.channelTimeout, s1)

/-- A concrete track used in counterexamples and witnesses. -/
def trackA : Track := { encoded := "A" }

/-- A second concrete track, distinct from `trackA`. -/
def trackB : Track := { encoded := "B" }

/-- A connected player with a bound guild and registry entry. -/
def sGuild : PlayerState :=
  { initState with guild := some 1, channel := some 10, registered := true, connected := true }

/-- `sGuild` currently playing `trackA` at volume 100. -/
def sA : PlayerState := { sGuild with current := some trackA, original := some trackA }

/-- A freshly `connect`-registered player that has received no voice
events yet. -/
def sReady : PlayerState :=
  { initState with guild := some 1, channel := some 10, registered := true }

/-- Claim C1, counterexample: from prior state `current = A`,
`volume = 100`, a `play(trackB, volume=500)` whose gateway push raises
re-raises the error but leaves `current = None`, not `current = A` —
the failure handler assigns `self._current = None` rather than the
pre-call value. -/
theorem play_failure_clears_current_counterexample :
    sA.current = some trackA ∧ sA.volume = 100 ∧
    (Player.play sA trackB true 0 none (some 500) none false).ok = false ∧
    (Player.play sA trackB true 0 none (some 500) none false).state.current ≠ some trackA ∧
    (Player.play sA trackB true 0 none (some 500) none false).state.current = none := by
  decide

/-- Claim C1 (amended): when the gateway push of `play` raises, the
error is re-raised and `previous`, `volume`, `paused`, `connected` and
the registry entry keep their pre-call values, while `current` and
`original` are set to absent (`None`) — not restored to their pre-call
values. -/
theorem play_failure_rollback (s : PlayerState) (t : Track) (r : Bool) (st : Int)
    (e : Option Int) (v : Option Int) (p : Option Bool)
    (hg : s.guild.isSome = true) :
    (Player.play s t r st e v p false).ok = false ∧
    (Player.play s t r st e v p false).state.volume = s.volume ∧
    (Player.play s t r st e v p false).state.previous = s.previous ∧
    (Player.play s t r st e v p false).state.current = none ∧
    (Player.play s t r st e v p false).state.original = none ∧
    (Player.play s t r st e v p false).state.paused = s.paused ∧
    (Player.play s t r st e v p false).state.connected = s.connected ∧
    (Player.play s t r st e v p false).state.registered = s.registered := by
  simp only [Player.play]
  split <;> split <;> try split
  all_goals simp_all

/-- Witness for `play_failure_rollback` at the concrete failed
`play(trackB, volume=500)` call from state `sA`. -/
theorem play_failure_rollback_witness :
    (Player.play sA trackB true 0 none (some 500) none false).ok = false ∧
    (Player.play sA trackB true 0 none (some 500) none false).state.volume = sA.volume ∧
    (Player.play sA trackB true 0 none (some 500) none false).state.previous = sA.previous ∧
    (Player.play sA trackB true 0 none (some 500) none false).state.current = none ∧
    (Player.play sA trackB true 0 none (some 500) none false).state.original = none ∧
    (Player.play sA trackB true 0 none (some 500) none false).state.paused = sA.paused ∧
    (Player.play sA trackB true 0 none (some 500) none false).state.connected = sA.connected ∧
    (Player.play sA trackB true 0 none (some 500) none false).state.registered = sA.registered :=
  play_failure_rollback sA trackB true 0 none (some 500) none (by decide)

/-- Claim C2, counterexample: a successful `play(trackB, replace=True)`
from `current = A` ends with `previous = trackB`, not `previous = A`:
the code assigns `self._current = track` before `self._previous =
self._current`. -/
theorem play_previous_gets_new_track_counterexample :
    sA.current = some trackA ∧ trackB ≠ trackA ∧
    (Player.play sA trackB true 0 none none none true).ok = true ∧
    (Player.play sA trackB true 0 none none none true).state.current = some trackB ∧
    (Player.play sA trackB true 0 none none none true).state.previous ≠ some trackA ∧
    (Player.play sA trackB true 0 none none none true).state.previous = some trackB := by
  decide

/-- Claim C2 (amended): a successful `play(t, replace=true)` sets
`current = t`, `original = t` and `previous = t` (the post-update
current), for every prior state. -/
theorem play_replace_success_state (s : PlayerState) (t : Track) (st : Int)
    (e : Option Int) (v : Option Int) (p : Option Bool)
    (hg : s.guild.isSome = true) :
    (Player.play s t true st e v p true).ok = true ∧
    (Player.play s t true st e v p true).state.current = some t ∧
    (Player.play s t true st e v p true).state.original = some t ∧
    (Player.play s t true st e v p true).state.previous = some t := by
  simp only [Player.play]
  split <;> try split
  all_goals simp_all

/-- Witness for `play_replace_success_state` at the concrete successful
`play(trackB, replace=true)` call from state `sA`. -/
theorem play_replace_success_state_witness :
    (Player.play sA trackB true 0 none none none true).ok = true ∧
    (Player.play sA trackB true 0 none none none true).state.current = some trackB ∧
    (Player.play sA trackB true 0 none none none true).state.original = some trackB ∧
    (Player.play sA trackB true 0 none none none true).state.previous = some trackB :=
  play_replace_success_state sA trackB 0 none none none (by decide)

/-- Claim C6: `set_volume(value)` submits the clamped value
`max(min(value, 1000), 0)` and on success commits exactly it; in
particular `-5` clamps to `0`, `5000` clamps to `1000`, and
`set_volume(100)` from volume `100` leaves the state unchanged. -/
theorem set_volume_clamps (s : PlayerState) (v : Int)
    (hg : s.guild.isSome = true) :
    (Player.set_volume s v true).submitted = max (min v 1000) 0 ∧
    (Player.set_volume s v true).state.volume = max (min v 1000) 0 ∧
    (Player.set_volume s v false).state = s ∧
    (Player.set_volume s (-5) true).state.volume = 0 ∧
    (Player.set_volume s 5000 true).state.volume = 1000 ∧
    (s.volume = 100 → Player.set_volume s 100 true =
      { state := s, submitted := 100, ok := true }) := by
  refine ⟨rfl, rfl, rfl, by norm_num [Player.set_volume], by norm_num [Player.set_volume], ?_⟩
  intro h
  simp only [Player.set_volume]
  norm_num
  cases s
  simp_all

/-- Witness for `set_volume_clamps` at state `sGuild` (volume 100) and
value `5000`. -/
theorem set_volume_clamps_witness :
    (Player.set_volume sGuild 5000 true).submitted = max (min 5000 1000) 0 ∧
    (Player.set_volume sGuild 5000 true).state.volume = max (min 5000 1000) 0 ∧
    (Player.set_volume sGuild 5000 false).state = sGuild ∧
    (Player.set_volume sGuild (-5) true).state.volume = 0 ∧
    (Player.set_volume sGuild 5000 true).state.volume = 1000 ∧
    (sGuild.volume = 100 → Player.set_volume sGuild 100 true =
      { state := sGuild, submitted := 100, ok := true }) :=
  set_volume_clamps sGuild 5000 (by decide)

/-- Claim C7: `pause(value)` assigns `_paused` only after the gateway
call returns; when the gateway raises, the state is exactly the
pre-call state, and on success only the `paused` field changes. -/
theorem pause_commit_after_success (s : PlayerState) (v : Bool)
    (hg : s.guild.isSome = true) :
    Player.pause s v false = (s, false) ∧
    (Player.pause s v true).1 = { s with paused := v } := by
  simp [Player.pause]

/-- Witness for `pause_commit_after_success` at state `sGuild`,
`pause(True)`. -/
theorem pause_commit_after_success_witness :
    Player.pause sGuild true false = (sGuild, false) ∧
    (Player.pause sGuild true true).1 = { sGuild with paused := true } :=
  pause_commit_after_success sGuild true (by decide)

/-- Claim C8: a membership event with a null `channel_id` on a
registered player with a bound guild runs `_destroy`: the connected
flag is cleared, the completion event reset, and the registry entry for
the guild removed. -/
theorem membership_lost_invalidates (s : PlayerState) (sid : String)
    (hg : s.guild.isSome = true) (hr : s.registered = true) :
    (Player.onVoiceStateUpdate s none sid).connected = false ∧
    (Player.onVoiceStateUpdate s none sid).connectionEvent = false ∧
    (Player.onVoiceStateUpdate s none sid).registered = false := by
  simp [Player.onVoiceStateUpdate, Player.destroy, Player.invalidate]

/-- Witness for `membership_lost_invalidates` at the registered,
awaiting-confirmation state `sReady`. -/
theorem membership_lost_invalidates_witness :
    (Player.onVoiceStateUpdate sReady none "sid").connected = false ∧
    (Player.onVoiceStateUpdate sReady none "sid").connectionEvent = false ∧
    (Player.onVoiceStateUpdate sReady none "sid").registered = false :=
  membership_lost_invalidates sReady "sid" (by decide) (by decide)

/-- Claim C9: calling `disconnect` twice is safe: the second call's
`node._players.pop(guild.id, None)` finds nothing, so the remote
destroy request is skipped and the state is unchanged — no error at the
deregistration step. -/
theorem disconnect_idempotent (s : PlayerState) (hg : s.guild.isSome = true) :
    (Player.disconnect (Player.disconnect s).1).2 = false ∧
    (Player.disconnect (Player.disconnect s).1).1 = (Player.disconnect s).1 := by
  simp [Player.disconnect, Player.destroy, Player.invalidate]

/-- Witness for `disconnect_idempotent` at state `sGuild`. -/
theorem disconnect_idempotent_witness :
    (Player.disconnect (Player.disconnect sGuild).1).2 = false ∧
    (Player.disconnect (Player.disconnect sGuild).1).1 = (Player.disconnect sGuild).1 :=
  disconnect_idempotent sGuild (by decide)

/-- Claim C10: `play` with an explicit `volume=0` behaves exactly like
`play` with no volume argument — Python's `volume or self._volume`
treats `0` as falsy — so the submitted delta carries the pre-call
volume and the local volume field is unchanged. -/
theorem play_zero_volume_ignored (s : PlayerState) (t : Track) (r : Bool)
    (st : Int) (e : Option Int) (p : Option Bool) (ok : Bool)
    (hg : s.guild.isSome = true) :
    Player.play s t r st e (some 0) p ok = Player.play s t r st e none p ok ∧
    (Player.play s t r st e (some 0) p ok).request.volume = s.volume ∧
    (Player.play s t r st e (some 0) p ok).state.volume = s.volume := by
  refine ⟨by simp [Player.play, pyOrInt], ?_, ?_⟩ <;>
    cases ok <;> simp [Player.play, pyOrInt] <;> try (split <;> simp)

/-- Witness for `play_zero_volume_ignored` at state `sA`, a successful
`play(trackB, volume=0)`. -/
theorem play_zero_volume_ignored_witness :
    Player.play sA trackB true 0 none (some 0) none true =
      Player.play sA trackB true 0 none none none true ∧
    (Player.play sA trackB true 0 none (some 0) none true).request.volume = sA.volume ∧
    (Player.play sA trackB true 0 none (some 0) none true).state.volume = sA.volume :=
  play_zero_volume_ignored sA trackB true 0 none none true (by decide)

/-- The push of `_dispatch_voice_update` happens exactly when the
descriptor is complete, whatever the gateway answers. -/
theorem dispatch_push_count (s : PlayerState) (ok : Bool) :
    (Player.dispatchVoiceUpdate s ok).2.toList.length =
      if descriptorComplete s then 1 else 0 := by
  unfold Player.dispatchVoiceUpdate
  cases hs : s.sessionId <;> cases ht : s.token <;>
    simp [descriptorComplete, hs, ht]
  cases he : s.endpoint <;> simp [he]
  rename_i ep
  by_cases hep : ep = ""
  · simp [hep]
  · cases ok <;> simp [hep]

/-- No push is attempted while the descriptor is incomplete. -/
theorem dispatch_no_push_incomplete (s : PlayerState) (ok : Bool)
    (h : descriptorComplete s = false) :
    (Player.dispatchVoiceUpdate s ok).2 = none := by
  have hc := dispatch_push_count s ok
  rw [h] at hc
  cases ho : (Player.dispatchVoiceUpdate s ok).2 <;> simp_all

/-- The number of descriptor pushes performed over a trace equals the
number of credentials events that complete the descriptor. -/
theorem runEvents_push_length (s : PlayerState) (evs : List VoiceEvent) :
    (runEvents s evs).2.length = countCompleteCredentials s evs := by
  induction evs generalizing s with
  | nil => rfl
  | cons e rest ih =>
    cases e with
    | membership cid sid =>
      simpa [runEvents, applyEvent, countCompleteCredentials] using ih _
    | credentials tok ep ok =>
      simp [runEvents, applyEvent, Player.onVoiceServerUpdate,
        countCompleteCredentials, dispatch_push_count, ih]

/-- Claim C3 (amended): the descriptor push is never attempted while
`session_id`, `token` or a non-empty `endpoint` is missing — but it
occurs once per credentials event that finds the descriptor complete,
not once per incomplete-to-complete transition: every such credentials
event (including repeats after completeness) pushes again, and
membership events never push. -/
theorem push_once_per_complete_credentials (s : PlayerState)
    (evs : List VoiceEvent) (hg : s.guild.isSome = true) :
    (runEvents s evs).2.length = countCompleteCredentials s evs ∧
    (∀ ok : Bool, descriptorComplete s = false →
      (Player.dispatchVoiceUpdate s ok).2 = none) ∧
    (∀ (cid : Option Nat) (sid : String),
      (applyEvent s (VoiceEvent.membership cid sid)).2 = []) := by
  refine ⟨runEvents_push_length s evs, ?_, ?_⟩
  · intro ok h
    exact dispatch_no_push_incomplete s ok h
  · intro cid sid
    rfl

/-- Witness for `push_once_per_complete_credentials` on the concrete
trace membership, credentials, credentials from `sReady`. -/
theorem push_once_per_complete_credentials_witness :
    (runEvents sReady
        [VoiceEvent.membership (some 10) "sid",
         VoiceEvent.credentials "tok" (some "endpoint") true,
         VoiceEvent.credentials "tok" (some "endpoint") true]).2.length =
      countCompleteCredentials sReady
        [VoiceEvent.membership (some 10) "sid",
         VoiceEvent.credentials "tok" (some "endpoint") true,
         VoiceEvent.credentials "tok" (some "endpoint") true] ∧
    (∀ ok : Bool, descriptorComplete sReady = false →
      (Player.dispatchVoiceUpdate sReady ok).2 = none) ∧
    (∀ (cid : Option Nat) (sid : String),
      (applyEvent sReady (VoiceEvent.membership cid sid)).2 = []) :=
  push_once_per_complete_credentials sReady
    [VoiceEvent.membership (some 10) "sid",
     VoiceEvent.credentials "tok" (some "endpoint") true,
     VoiceEvent.credentials "tok" (some "endpoint") true] (by decide)

/-- Claim C3, counterexample: on the trace membership, credentials,
credentials the descriptor moves from incomplete to complete exactly
once, yet two pushes are attempted — `on_voice_server_update` calls
`_dispatch_voice_update` on every credentials event, with no sent-once
guard. -/
theorem push_repeated_credentials_counterexample :
    completenessTransitions sReady
        [VoiceEvent.membership (some 10) "sid",
         VoiceEvent.credentials "tok" (some "endpoint") true,
         VoiceEvent.credentials "tok" (some "endpoint") true] = 1 ∧
    (runEvents sReady
        [VoiceEvent.membership (some 10) "sid",
         VoiceEvent.credentials "tok" (some "endpoint") true,
         VoiceEvent.credentials "tok" (some "endpoint") true]).2.length = 2 := by
  decide

/-- Claim C4, counterexample: after the event order credentials first,
then membership (from a freshly registered player), the completion
signal is never raised and no push is attempted — `on_voice_state_update`
stores the session id but never calls `_dispatch_voice_update` — so a
`connect` waiting on the signal can only time out. -/
theorem credentials_first_no_signal_counterexample :
    (runEvents sReady
        [VoiceEvent.credentials "tok" (some "endpoint") true,
         VoiceEvent.membership (some 10) "sid"]).1.connectionEvent = false ∧
    (runEvents sReady
        [VoiceEvent.credentials "tok" (some "endpoint") true,
         VoiceEvent.membership (some 10) "sid"]).2 = [] ∧
    (Player.connect (runEvents sReady
        [VoiceEvent.credentials "tok" (some "endpoint") true,
         VoiceEvent.membership (some 10) "sid"]).1 1 WaitOutcome.timedOut).1 =
      ConnectOutcome.channelTimeout := by
  decide

/-- Claim C4 (amended): `connect` raises `ChannelTimeoutException` when
the bounded wait times out, and identically when it is cancelled, and
succeeds when the completion signal is raised (immediately when it is
already set); the signal is raised by the order membership first, then
credentials (with a successful push), but the order credentials first,
then membership leaves the signal unraised, because only
`on_voice_server_update` triggers the descriptor push. -/
theorem connect_timeout_and_event_order (s : PlayerState) (g cid : Nat)
    (sid tok ep : String) (hch : s.channel.isSome = true)
    (hg : s.guild.isSome = true) (hep : ep ≠ "")
    (hsid : s.sessionId = none) (hev : s.connectionEvent = false) :
    (Player.connect s g WaitOutcome.timedOut).1 = ConnectOutcome.channelTimeout ∧
    (Player.connect s g WaitOutcome.cancelled).1 = ConnectOutcome.channelTimeout ∧
    (Player.connect s g WaitOutcome.signalled).1 = ConnectOutcome.success ∧
    (∀ w : WaitOutcome, s.connectionEvent = true →
      (Player.connect s g w).1 = ConnectOutcome.success) ∧
    (runEvents s [VoiceEvent.membership (some cid) sid,
        VoiceEvent.credentials tok (some ep) true]).1.connectionEvent = true ∧
    (runEvents s [VoiceEvent.credentials tok (some ep) true,
        VoiceEvent.membership (some cid) sid]).1.connectionEvent = false := by
  obtain ⟨c, hc⟩ := Option.isSome_iff_exists.mp hch
  obtain ⟨gd, hgd⟩ := Option.isSome_iff_exists.mp hg
  refine ⟨?_, ?_, ?_, ?_, ?_, ?_⟩
  · simp [Player.connect, hc, hgd, hev]
  · simp [Player.connect, hc, hgd, hev]
  · simp [Player.connect, hc, hgd, hev]
  · intro w hevt
    simp_all
  · simp [runEvents, applyEvent, Player.onVoiceStateUpdate,
      Player.onVoiceServerUpdate, Player.dispatchVoiceUpdate, hep]
  · simp [runEvents, applyEvent, Player.onVoiceStateUpdate,
      Player.onVoiceServerUpdate, Player.dispatchVoiceUpdate, hsid, hev]

/-- Witness for `connect_timeout_and_event_order` at the freshly
registered state `sReady` with concrete ids and credentials. -/
theorem connect_timeout_and_event_order_witness :
    (Player.connect sReady 1 WaitOutcome.timedOut).1 = ConnectOutcome.channelTimeout ∧
    (Player.connect sReady 1 WaitOutcome.cancelled).1 = ConnectOutcome.channelTimeout ∧
    (Player.connect sReady 1 WaitOutcome.signalled).1 = ConnectOutcome.success ∧
    (∀ w : WaitOutcome, sReady.connectionEvent = true →
      (Player.connect sReady 1 w).1 = ConnectOutcome.success) ∧
    (runEvents sReady [VoiceEvent.membership (some 10) "sid",
        VoiceEvent.credentials "tok" (some "endpoint") true]).1.connectionEvent = true ∧
    (runEvents sReady [VoiceEvent.credentials "tok" (some "endpoint") true,
        VoiceEvent.membership (some 10) "sid"]).1.connectionEvent = false :=
  connect_timeout_and_event_order sReady 1 10 "sid" "tok" "endpoint"
    (by decide) (by decide) (by decide) (by decide) (by decide)

/-- One externally triggered operation or event on a player, with the
gateway outcomes it may involve. -/
inductive Op where
  | playOp (track : Track) (replace : Bool) (start : Int) (endTime : Option Int)
      (volume : Option Int) (pausedArg : Option Bool) (gatewayOk : Bool)
  | pauseOp (value : Bool) (gatewayOk : Bool)
  | setVolumeOp (value : Int) (gatewayOk : Bool)
  | seekOp (position : Int)
  | skipOp
  | membershipOp (channelId : Option Nat) (sessionId : String)
  | credentialsOp (token : String) (endpoint : Option String) (gatewayOk : Bool)
  | connectOp (channelGuild : Nat) (w : WaitOutcome)
  | disconnectOp
deriving DecidableEq, Repr

/-- The state reached by running one operation. -/
def applyOp (s : PlayerState) : Op → PlayerState
  | Op.playOp t r st e v p ok => (Player.play s t r st e v p ok).state
  | Op.pauseOp v ok => (Player.pause s v ok).1
  | Op.setVolumeOp v ok => (Player.set_volume s v ok).state
  | Op.seekOp p => (Player.seek s p).1
  | Op.skipOp => (Player.skip s).1
  | Op.membershipOp cid sid => Player.onVoiceStateUpdate s cid sid
  | Op.credentialsOp tok ep ok => (Player.onVoiceServerUpdate s tok ep ok).1
  | Op.connectOp g w => (Player.connect s g w).2
  | Op.disconnectOp => (Player.disconnect s).1

/-- An operation respects the documented precondition of `play` that an
explicit volume lies between 0 and 1000; every other operation is
unconstrained. -/
def volumeSafe : Op → Bool
  | Op.playOp _ _ _ _ (some v) _ _ => decide (0 ≤ v ∧ v ≤ 1000)
  | _ => true

/-- The volume after a `play` call: the Python-truthiness-resolved
target volume on success, the snapshot `original_vol` on failure. -/
theorem play_state_volume (s : PlayerState) (t : Track) (r : Bool) (st : Int)
    (e : Option Int) (v : Option Int) (p : Option Bool) (ok : Bool) :
    (Player.play s t r st e v p ok).state.volume =
      if ok then pyOrInt v s.volume else s.volume := by
  cases ok <;> simp only [Player.play]
  all_goals repeat' split
  all_goals simp_all

/-- The state after `_dispatch_voice_update` differs from its input
only in `connectionEvent`, `connected` and `registered`. -/
theorem dispatch_state_volume (s : PlayerState) (ok : Bool) :
    (Player.dispatchVoiceUpdate s ok).1.volume = s.volume := by
  unfold Player.dispatchVoiceUpdate
  cases hs : s.sessionId <;> cases ht : s.token <;> simp
  cases he : s.endpoint <;> simp
  split
  · simp
  · cases ok <;> simp [Player.disconnect, Player.destroy, Player.invalidate]

/-- Claim C5, counterexample: a successful `play` with the out-of-range
explicit volume `5000` commits `_volume = 5000` — `play` performs no
clamping, so the claimed global bound `volume ≤ 1000` is violated in a
reachable state. -/
theorem play_unclamped_volume_counterexample :
    sGuild.volume = 100 ∧
    (Player.play sGuild trackA true 0 none (some 5000) none true).ok = true ∧
    (Player.play sGuild trackA true 0 none (some 5000) none true).state.volume = 5000 ∧
    ¬ (Player.play sGuild trackA true 0 none (some 5000) none true).state.volume ≤ 1000 := by
  decide

/-- Claim C5 (amended): `volume` is 100 at creation and stays within
`[0, 1000]` under every operation, provided each `play` call respects
its documented precondition that an explicit volume lies in
`[0, 1000]` — `set_volume` clamps, but `play` commits an explicit
out-of-range volume unchanged. -/
theorem volume_bounds_preserved (s : PlayerState) (op : Op)
    (h0 : 0 ≤ s.volume) (h1 : s.volume ≤ 1000) (hs : volumeSafe op = true) :
    initState.volume = 100 ∧
    0 ≤ (applyOp s op).volume ∧ (applyOp s op).volume ≤ 1000 := by
  refine ⟨rfl, ?_⟩
  cases op with
  | playOp t r st e v p ok =>
    rw [applyOp, play_state_volume]
    cases ok with
    | false => exact ⟨h0, h1⟩
    | true =>
      cases v with
      | none => exact ⟨h0, h1⟩
      | some x =>
        by_cases hx : x = 0
        · simp [pyOrInt, hx]
          exact ⟨h0, h1⟩
        · simp only [volumeSafe, decide_eq_true_eq] at hs
          simp [pyOrInt, hx]
          exact hs
  | pauseOp v ok => cases ok <;> simp [applyOp, Player.pause] <;> exact ⟨h0, h1⟩
  | setVolumeOp v ok =>
    cases ok <;> simp [applyOp, Player.set_volume] <;> constructor <;> omega
  | seekOp p =>
    cases hc : s.current <;> simp [applyOp, Player.seek, hc] <;> exact ⟨h0, h1⟩
  | skipOp => exact ⟨h0, h1⟩
  | membershipOp cid sid =>
    cases cid <;>
      simp [applyOp, Player.onVoiceStateUpdate, Player.destroy, Player.invalidate] <;>
      exact ⟨h0, h1⟩
  | credentialsOp tok ep ok =>
    rw [applyOp, Player.onVoiceServerUpdate]
    rw [dispatch_state_volume]
    exact ⟨h0, h1⟩
  | connectOp g w =>
    rw [applyOp]
    unfold Player.connect
    cases hc : s.channel <;> simp
    · exact ⟨h0, h1⟩
    · split <;> split <;> simp <;> exact ⟨h0, h1⟩
  | disconnectOp =>
    simp [applyOp, Player.disconnect, Player.destroy, Player.invalidate]
    exact ⟨h0, h1⟩

/-- Witness for `volume_bounds_preserved`: the clamping `set_volume`
call with value `5000` from the initial state. -/
theorem volume_bounds_preserved_witness :
    initState.volume = 100 ∧
    0 ≤ (applyOp initState (Op.setVolumeOp 5000 true)).volume ∧
    (applyOp initState (Op.setVolumeOp 5000 true)).volume ≤ 1000 :=
  volume_bounds_preserved initState (Op.setVolumeOp 5000 true)
    (by decide) (by decide) (by decide)
